import Mathlib

/-!
Verification of the CUA (Computer Use Assistant) core against its design
specification.  The development shallowly embeds the Python sources
`src/cua/scaler.py`, `src/cua/agent.py` and
`src/cua/computer_use_assistant.py`: pure computations become Lean
functions, object state becomes explicit state passing, machine floats on
the coordinate path become exact rationals (all the arithmetic involved is
ratios of machine integers, where the two agree), and raised exceptions
become explicit error values.
-/

namespace CUA

/-- Python `int()` applied to a real number truncates toward zero.
On rationals this is the floor for nonnegative inputs and the ceiling for
negative ones. -/
def pyInt (q : ℚ) : Int := if q < 0 then ⌈q⌉ else ⌊q⌋

/-- A primitive call delivered to the underlying `Computer` capability
(the methods of `LocalComputer` that `Scaler` forwards to,
scaler.py lines 87-122). -/
inductive CompCall where
  | click (x y : Int) (button : String)
  | double_click (x y : Int)
  | scroll (x y scroll_x scroll_y : Int)
  | type (text : String)
  | wait (ms : Int)
  | move (x y : Int)
  | keypress (keys : List String)
  | drag (path : List (Int × Int))
  | screenshot
  deriving Repr, DecidableEq

/-- State of a `Scaler` (scaler.py lines 22-26): the configured/cached
logical size and the physical size recorded by the last `screenshot()`
call.  `screen_width`/`screen_height` start at the sentinel `-1`. -/
structure Scaler where
  size : Option (Nat × Nat)
  screen_width : Int
  screen_height : Int
  deriving Repr, DecidableEq

/-- Embeds `Scaler.__init__(computer, dimensions=None)` (scaler.py lines 22-26). -/
def Scaler.init (dims : Option (Nat × Nat)) : Scaler :=
  { size := dims, screen_width := -1, screen_height := -1 }

/-- Embeds `Scaler.dimensions` (scaler.py lines 33-47).  The underlying computer's
physical size is passed explicitly (`comp_dims` stands for
`self.computer.dimensions`).  When no size is configured the physical
size is capped so its longest edge does not exceed 2048, and the result
is cached in `self.size`.  Returns the value and the updated state. -/
def Scaler.dimensionsRun (s : Scaler) (comp_dims : Nat × Nat) :
    (Nat × Nat) × Scaler :=
  match s.size with
  | some sz => (sz, s)
  | none =>
    let width := comp_dims.1
    let height := comp_dims.2
    let max_size : Nat := 2048
    let longest := max width height
    if longest ≤ max_size then
      ((width, height), { s with size := some (width, height) })
    else
      let scale : ℚ := (max_size : ℚ) / (longest : ℚ)
      let sz := ((pyInt ((width : ℚ) * scale)).toNat,
                 (pyInt ((height : ℚ) * scale)).toNat)
      (sz, { s with size := some sz })

/-- Embeds `Scaler.screenshot` (scaler.py lines 49-85), state part.  The image
decoded from the computer's screenshot has true pixel size
`(img_w, img_h)`; the call records it in `screen_width`/`screen_height`,
computes the logical dimensions (caching them), resizes the image by
`ratio = min(width/screen_width, height/screen_height)` and pastes it at
the origin of a canvas of the full logical size.  Returns the updated
state, the canvas size, and the resized-image size. -/
def Scaler.screenshotRun (s : Scaler) (comp_dims : Nat × Nat)
    (img_w img_h : Nat) : Scaler × (Nat × Nat) × (Int × Int) :=
  let s1 : Scaler := { s with screen_width := (img_w : Int),
                              screen_height := (img_h : Int) }
  let (wh, s2) := s1.dimensionsRun comp_dims
  let ratio : ℚ := min ((wh.1 : ℚ) / (s2.screen_width : ℚ))
                       ((wh.2 : ℚ) / (s2.screen_height : ℚ))
  let new_width := pyInt ((s2.screen_width : ℚ) * ratio)
  let new_height := pyInt ((s2.screen_height : ℚ) * ratio)
  (s2, wh, (new_width, new_height))

/-- Embeds `Scaler._point_to_screen_coords` (scaler.py lines 124-135): recompute
`ratio = min(width/screen_width, height/screen_height)` from the current
logical dimensions and the recorded screen size, and truncate
`(x/ratio, y/ratio)` with `int()`. -/
def Scaler.point_to_screen_coords (s : Scaler) (comp_dims : Nat × Nat)
    (x y : Int) : (Int × Int) × Scaler :=
  let (wh, s1) := s.dimensionsRun comp_dims
  let ratio : ℚ := min ((wh.1 : ℚ) / (s1.screen_width : ℚ))
                       ((wh.2 : ℚ) / (s1.screen_height : ℚ))
  let screen_x : ℚ := (x : ℚ) / ratio
  let screen_y : ℚ := (y : ℚ) / ratio
  ((pyInt screen_x, pyInt screen_y), s1)

/-- Embeds `Scaler.click` (scaler.py lines 87-90). -/
def Scaler.click (s : Scaler) (comp_dims : Nat × Nat) (x y : Int)
    (button : String) : CompCall × Scaler :=
  let (p, s1) := s.point_to_screen_coords comp_dims x y
  (.click p.1 p.2 button, s1)

/-- Embeds `Scaler.double_click` (scaler.py lines 92-95). -/
def Scaler.double_click (s : Scaler) (comp_dims : Nat × Nat) (x y : Int) :
    CompCall × Scaler :=
  let (p, s1) := s.point_to_screen_coords comp_dims x y
  (.double_click p.1 p.2, s1)

/-- Embeds `Scaler.scroll` (scaler.py lines 97-100): only the position is
translated, the deltas pass through. -/
def Scaler.scroll (s : Scaler) (comp_dims : Nat × Nat)
    (x y scroll_x scroll_y : Int) : CompCall × Scaler :=
  let (p, s1) := s.point_to_screen_coords comp_dims x y
  (.scroll p.1 p.2 scroll_x scroll_y, s1)

/-- Embeds `Scaler.type` (scaler.py lines 102-104): pass-through. -/
def Scaler.type (s : Scaler) (text : String) : CompCall × Scaler :=
  (.type text, s)

/-- Embeds `Scaler.wait` (scaler.py lines 106-108): pass-through. -/
def Scaler.wait (s : Scaler) (ms : Int) : CompCall × Scaler :=
  (.wait ms, s)

/-- Embeds `Scaler.move` (scaler.py lines 110-113). -/
def Scaler.move (s : Scaler) (comp_dims : Nat × Nat) (x y : Int) :
    CompCall × Scaler :=
  let (p, s1) := s.point_to_screen_coords comp_dims x y
  (.move p.1 p.2, s1)

/-- Embeds `Scaler.keypress` (scaler.py lines 115-117): pass-through. -/
def Scaler.keypress (s : Scaler) (keys : List String) : CompCall × Scaler :=
  (.keypress keys, s)

/-- Point-by-point translation of a drag path, threading the state as the
list comprehension in `Scaler.drag` does. -/
def Scaler.dragPoints (s : Scaler) (comp_dims : Nat × Nat) :
    List (Int × Int) → List (Int × Int) × Scaler
  | [] => ([], s)
  | p :: ps =>
    let (q, s1) := s.point_to_screen_coords comp_dims p.1 p.2
    let (qs, s2) := s1.dragPoints comp_dims ps
    (q :: qs, s2)

/-- Embeds `Scaler.drag` (scaler.py lines 119-122). -/
def Scaler.drag (s : Scaler) (comp_dims : Nat × Nat)
    (path : List (Int × Int)) : CompCall × Scaler :=
  let (path1, s1) := s.dragPoints comp_dims path
  (.drag path1, s1)

/-- One fragment of a message item's `content` list (agent.py lines 77-79
inspect `content.type` and `content.text`). -/
inductive ContentPart where
  | output_text (text : String)
  | other_content (ty text : String)
  deriving Repr, DecidableEq

/-- One output item of a model response (the cases dispatched on
`item.type` throughout agent.py: `"message"`, `"computer_call"`,
`"function_call"`, `"reasoning"`, and anything else). -/
inductive OutputItem where
  | message (role : String) (content : List ContentPart)
  | computer_call (call_id : String) (action : CompCall)
      (pending_safety_checks : List String)
  | function_call (call_id : String) (name : String) (arguments : String)
  | reasoning (summary : List String)
  | other_item (ty : String)
  deriving Repr, DecidableEq

/-- The action kind string, i.e. the `"type"` entry popped from
`vars(item.action)` (agent.py lines 90-91) and the name used for
`getattr(self.computer, action)`. -/
def CompCall.kind : CompCall → String
  | .click .. => "click"
  | .double_click .. => "double_click"
  | .scroll .. => "scroll"
  | .type .. => "type"
  | .wait .. => "wait"
  | .move .. => "move"
  | .keypress .. => "keypress"
  | .drag .. => "drag"
  | .screenshot => "screenshot"

/-- A model response (the fields of `self.response` the code reads:
`id`, `status`, `output`). -/
structure Response where
  id : String
  status : String
  output : List OutputItem
  deriving Repr, DecidableEq

/-- Agent state (agent.py lines 23-32): the current response (Turn), the
registered custom tools (name, handler) — the handler is modelled as a
pure function from the raw `arguments` string to the serialized result —
and the `parallel_tool_calls` flag (default `False`). -/
structure Agent where
  response : Option Response
  tools : List (String × (String → String))
  parallel_tool_calls : Bool

/-- Embeds `Agent.start_task` (agent.py lines 98-100). -/
def Agent.start_task (a : Agent) : Agent := { a with response := none }

/-- Embeds `Agent.requires_user_input` (agent.py lines 39-45): true when there is
no response or its output is empty (`List.getLast? = none` covers
`len(self.response.output) == 0`), otherwise the last item must be a
message with role `"assistant"`. -/
def Agent.requires_user_input (a : Agent) : Bool :=
  match a.response with
  | none => true
  | some r =>
    match r.output.getLast? with
    | none => true
    | some (.message role _) => role == "assistant"
    | some _ => false

/-- Whether an output item is a `computer_call`. -/
def OutputItem.isComputerCall : OutputItem → Bool
  | .computer_call .. => true
  | _ => false

/-- Embeds `Agent.requires_consent` (agent.py lines 47-52). -/
def Agent.requires_consent (a : Agent) : Bool :=
  match a.response with
  | none => false
  | some r => r.output.any OutputItem.isComputerCall

/-- Embeds `Agent.pending_safety_checks` (agent.py lines 54-60): all safety checks
of all `computer_call` items, in order. -/
def Agent.pending_safety_checks (a : Agent) : List String :=
  match a.response with
  | none => []
  | some r =>
    (r.output.filterMap fun item =>
      match item with
      | .computer_call _ _ checks => some checks
      | _ => none).flatten

/-- Embeds `Agent.reasoning_summary` (agent.py lines 62-68). -/
def Agent.reasoning_summary (a : Agent) : String :=
  match a.response with
  | none => ""
  | some r =>
    String.join ((r.output.filterMap fun item =>
      match item with
      | .reasoning summary => some summary
      | _ => none).flatten)

/-- Embeds `Agent.messages` (agent.py lines 70-80): the `output_text` fragments of
all message items. -/
def Agent.messages (a : Agent) : List String :=
  match a.response with
  | none => []
  | some r =>
    (r.output.filterMap fun item =>
      match item with
      | .message _ content =>
        some (content.filterMap fun c =>
          match c with
          | .output_text t => some t
          | _ => none)
      | _ => none).flatten

/-- Embeds `Agent.actions` (agent.py lines 82-96): the action of every
`computer_call` item, in order. -/
def Agent.actions (a : Agent) : List CompCall :=
  match a.response with
  | none => []
  | some r =>
    r.output.filterMap fun item =>
      match item with
      | .computer_call _ act _ => some act
      | _ => none

/-- One turn input submitted to the model (agent.py lines 128-137, 153-158,
167-169). -/
inductive InputItem where
  | computer_call_output (call_id : String) (image_url : String)
      (acknowledged_safety_checks : List String)
  | function_call_output (call_id : String) (output : String)
  | message (role : String) (content : String)
  deriving Repr, DecidableEq

/-- The exceptions `continue_task` can raise, as explicit values:
`IndexError` (from `self.actions[0]` on an empty list), `ValueError` for
an unregistered tool name, `NotImplementedError` for an unknown output
item type, the two `openai` errors re-raised on exhaustion, and the
`AssertionError` from `assert self.response.status == "completed"`. -/
inductive AgentErr where
  | index_error
  | unsupported_tool (name : String)
  | not_implemented (ty : String)
  | rate_limit (msg : String)
  | internal_server_error (msg : String)
  | assertion_error
  deriving Repr, DecidableEq

/-- Accumulator for the item loop of `continue_task` (agent.py lines
110-164): the `inputs` list being built, the actions dispatched to the
computer so far, and how many screenshots have been captured. -/
structure StepAcc where
  inputs : List InputItem
  executed : List CompCall
  shots : Nat
  deriving Repr, DecidableEq

/-- The item loop of `continue_task` (agent.py lines 110-164).  `shot k`
stands for the base64 screenshot string returned by the `k`-th
`self.computer.screenshot()` call.  For each `computer_call` item the code
executes `self.actions[0]` — the action of the FIRST pending computer
call, re-read from the unchanged `self.response` — skipping the dispatch
when that action's kind is `"screenshot"`, then captures a screenshot and
appends a `computer_call_output` for this item's `call_id` carrying ALL
pending safety checks.  `function_call` items invoke the registered
handler or fail; `reasoning`/`message` items are skipped; anything else
raises. -/
def Agent.runOutputItems (a : Agent) (shot : Nat → String) :
    List OutputItem → StepAcc → StepAcc × Option AgentErr
  | [], acc => (acc, none)
  | item :: rest, acc =>
    match item with
    | .computer_call call_id _ _ =>
      match a.actions with
      | [] => (acc, some .index_error)
      | act :: _ =>
        let executed :=
          if act.kind ≠ "screenshot" then acc.executed ++ [act]
          else acc.executed
        let img := shot acc.shots
        let out := InputItem.computer_call_output call_id
            ("data:image/png;base64," ++ img) a.pending_safety_checks
        a.runOutputItems shot rest
          { inputs := acc.inputs ++ [out], executed := executed,
            shots := acc.shots + 1 }
    | .function_call call_id name args =>
      match a.tools.lookup name with
      | none => (acc, some (.unsupported_tool name))
      | some f =>
        a.runOutputItems shot rest
          { acc with inputs :=
              acc.inputs ++ [InputItem.function_call_output call_id (f args)] }
    | .reasoning _ => a.runOutputItems shot rest acc
    | .message _ _ => a.runOutputItems shot rest acc
    | .other_item ty => (acc, some (.not_implemented ty))

/-- Digit run to number, as for the regex capture group. -/
def digitsToNat (ds : List Char) : Nat :=
  ds.foldl (fun acc c => 10 * acc + (c.toNat - '0'.toNat)) 0

/-- The literal part of the pattern `Please try again in (\d+)s`
(agent.py line 201). -/
def rateLimitPattern : List Char := "Please try again in ".toList

/-- Whether the regex `Please try again in (\d+)s` matches at the head of
`cs`: the literal prefix, then a maximal nonempty digit run, then `s`
(greedy `\d+` followed by a non-digit literal admits no backtracking, so
the maximal run is the only candidate). -/
def matchWaitAt (cs : List Char) : Option Nat :=
  if cs.take rateLimitPattern.length = rateLimitPattern then
    let rest := cs.drop rateLimitPattern.length
    let ds := rest.takeWhile Char.isDigit
    let rest2 := rest.drop ds.length
    if ds ≠ [] ∧ rest2.head? = some 's' then some (digitsToNat ds) else none
  else none

/-- Embeds `re.search` for the pattern: leftmost match wins. -/
def searchWait : List Char → Option Nat
  | [] => none
  | c :: rest =>
    match matchWaitAt (c :: rest) with
    | some n => some n
    | none => searchWait rest

/-- What one API attempt (`self.client.responses.create(**kwargs)`) does:
returns a response, raises `openai.RateLimitError`, or raises
`openai.InternalServerError`.  Any other exception would propagate
uncaught; the claims under study exercise only these three. -/
inductive AttemptOutcome where
  | success (resp : Response)
  | rate_limit (msg : String)
  | internal_server_error (msg : String)
  deriving Repr, DecidableEq

/-- The retry loop of `continue_task` (agent.py lines 173-218), with
`outcomes i` the result of the `i`-th API attempt.  Arguments mirror the
Python locals: the pending sleep `wait`, the remaining budget `retry`
(decremented at the head of each iteration; `retry == 0` in a handler
re-raises), and the attempt index.  Returns the sleeps performed before
each attempt, the final `self.response` (set before the status assert,
`None` on a raise since line 172 cleared it), and the outcome.  The
budget-0 base case is the `while` falling through, which in Python
returns `None` leaving `self.response = None` (unreachable from the
initial budget of 10). -/
def retryLoop (outcomes : Nat → AttemptOutcome) :
    Nat → Nat → Nat → List Nat × Option Response × Except AgentErr Unit
  | _, 0, _ => ([], none, .ok ())
  | wait, budget + 1, i =>
    match outcomes i with
    | .success resp =>
      if resp.status = "completed" then ([wait], some resp, .ok ())
      else ([wait], some resp, .error .assertion_error)
    | .rate_limit msg =>
      let wait2 := (searchWait msg.toList).getD 10
      if budget = 0 then ([wait], none, .error (.rate_limit msg))
      else
        let r := retryLoop outcomes wait2 budget (i + 1)
        (wait :: r.1, r.2.1, r.2.2)
    | .internal_server_error msg =>
      if budget = 0 then ([wait], none, .error (.internal_server_error msg))
      else
        let r := retryLoop outcomes wait budget (i + 1)
        (wait :: r.1, r.2.1, r.2.2)

/-- Everything observable about one `continue_task` call: the final agent
state, the request data built (continuation id and inputs), the actions
dispatched to the computer, the screenshots captured, the sleeps
performed, and whether the call returned or raised. -/
structure ContinueResult where
  agent : Agent
  previous_response_id : Option String
  inputs : List InputItem
  executed : List CompCall
  screenshots_taken : Nat
  sleeps : List Nat
  result : Except AgentErr Unit

/-- Embeds `Agent.continue_task` (agent.py lines 102-218).  Phase 1 walks the
previous response's output items (executing actions and building
`inputs`); an exception there propagates with `self.response` unchanged.
Phase 2 appends the user message when non-empty.  Phase 3 clears
`self.response` (line 172) and runs the retry loop. -/
def Agent.continue_task (a : Agent) (shot : Nat → String)
    (outcomes : Nat → AttemptOutcome) (user_message : String) :
    ContinueResult :=
  let prev_id := a.response.map Response.id
  let out :=
    match a.response with
    | none => []
    | some r => r.output
  let step := a.runOutputItems shot out
    { inputs := [], executed := [], shots := 0 }
  match step.2 with
  | some e =>
    { agent := a, previous_response_id := prev_id,
      inputs := step.1.inputs, executed := step.1.executed,
      screenshots_taken := step.1.shots, sleeps := [], result := .error e }
  | none =>
    let inputs :=
      if user_message ≠ "" then
        step.1.inputs ++ [InputItem.message "user" user_message]
      else step.1.inputs
    let r := retryLoop outcomes 0 10 0
    { agent := { a with response := r.2.1 },
      previous_response_id := prev_id,
      inputs := inputs, executed := step.1.executed,
      screenshots_taken := step.1.shots, sleeps := r.1, result := r.2.2 }

/-- The configuration fields of `CUAConfig` that
`ComputerUseAssistant.execute_instructions` reads
(computer_use_assistant.py lines 114-155). -/
structure EConfig where
  max_actions : Nat
  autoplay : Bool
  require_consent : Bool
  safety_checks_enabled : Bool
  deriving Repr, DecidableEq

/-- Embeds `ComputerUseAssistant._get_user_consent` (computer_use_assistant.py
lines 202-210): returns `True` on both the autoplay and the
non-autoplay path. -/
def get_user_consent (_autoplay : Bool) : Bool := true

/-- Embeds `ComputerUseAssistant._handle_safety_checks` (computer_use_assistant.py
lines 212-220): returns `True` on both paths. -/
def handle_safety_checks (_autoplay : Bool) (_checks : List String) : Bool :=
  true

/-- The `ExecutionResult` dataclass (computer_use_assistant.py lines
23-30); `screenshots` is the length of the screenshots list. -/
structure ExecResult where
  success : Bool
  summary : String
  actions_taken : Nat
  error_message : Option String
  screenshots : Nat
  deriving Repr, DecidableEq

/-- An `execute_instructions` run together with the observables the
orchestrator claims speak about: how many `continue_task` calls were made
and which actions were dispatched to the computer across them. -/
structure RunOutcome where
  result : ExecResult
  continue_calls : Nat
  executed : List CompCall
  deriving Repr, DecidableEq

/-- The `while actions_taken < self.config.max_actions` loop of
`execute_instructions` (computer_use_assistant.py lines 113-171), as a
fuel-indexed recursion (`none` = fuel exhausted; the theorems always
supply enough fuel).  `turns k` is the response the remote model returns
for the `k`-th `continue_task` call of this run.  State carried: the
agent, the pending `user_input` (`""` plays Python's falsy `None`), the
`actions_taken` counter, the number of `continue_task` calls so far and
the actions dispatched to the computer so far.  The returned
`Option AgentErr` distinguishes normal loop exit from an exception
escaping to the `except` clause. -/
def execLoop (cfg : EConfig) (turns : Nat → Response) (shot : Nat → String) :
    Nat → Agent → String → Nat → Nat → List CompCall →
    Option (Agent × Nat × Nat × List CompCall × Option AgentErr)
  | 0, _, _, _, _, _ => none
  | fuel + 1, ag, user_input, actions_taken, calls, executed =>
    if actions_taken < cfg.max_actions then
      if user_input = "" ∧ ag.requires_user_input then
        some (ag, actions_taken, calls, executed, none)
      else
        let cr := ag.continue_task shot
          (fun _ => .success (turns calls)) user_input
        match cr.result with
        | .error e =>
          some (cr.agent, actions_taken, calls + 1, executed ++ cr.executed,
            some e)
        | .ok _ =>
          let ag1 := cr.agent
          if ag1.requires_consent ∧ ¬cfg.autoplay ∧ cfg.require_consent ∧
              get_user_consent cfg.autoplay = false then
            some (ag1, actions_taken, calls + 1, executed ++ cr.executed, none)
          else if ag1.pending_safety_checks ≠ [] ∧ ¬cfg.autoplay ∧
              cfg.safety_checks_enabled ∧
              handle_safety_checks cfg.autoplay ag1.pending_safety_checks
                = false then
            some (ag1, actions_taken, calls + 1, executed ++ cr.executed, none)
          else
            let acts := ag1.actions
            let taken1 := actions_taken + acts.length
            if ag1.requires_user_input = false ∧ acts = [] then
              some (ag1, taken1, calls + 1, executed ++ cr.executed, none)
            else if cfg.max_actions ≤ taken1 then
              some (ag1, taken1, calls + 1, executed ++ cr.executed, none)
            else
              execLoop cfg turns shot fuel ag1 "" taken1 (calls + 1)
                (executed ++ cr.executed)
    else
      some (ag, actions_taken, calls, executed, none)

/-- Embeds `ComputerUseAssistant.execute_instructions` (computer_use_assistant.py
lines 90-200): start the task on a fresh agent, run the loop, then — on
normal exit — capture one final screenshot and return a success result
whose summary reports the action count; an exception escaping the loop
yields the `except` branch's failure result instead. -/
def execute_instructions (cfg : EConfig) (turns : Nat → Response)
    (shot : Nat → String) (instructions : String) (fuel : Nat) :
    Option RunOutcome :=
  let ag0 : Agent :=
    Agent.start_task
      { response := none, tools := [], parallel_tool_calls := false }
  match execLoop cfg turns shot fuel ag0 instructions 0 0 [] with
  | none => none
  | some (_, taken, calls, executed, none) =>
    some { result :=
             { success := true,
               summary := "Task completed successfully with "
                 ++ toString taken ++ " actions",
               actions_taken := taken, error_message := none,
               screenshots := 1 },
           continue_calls := calls, executed := executed }
  | some (_, taken, calls, executed, some _) =>
    some { result :=
             { success := false,
               summary := "Failed after " ++ toString taken ++ " actions",
               actions_taken := taken,
               error_message := some "Task execution failed",
               screenshots := 0 },
           continue_calls := calls, executed := executed }

/-- The characterisation claimed by the spec, following its words: true
exactly when no Turn exists or the last output item of the current Turn
is an assistant message.  (Stated as a second definition to compare with
`Agent.requires_user_input`, which is translated from the code.) -/
def claimRequiresUserInput (a : Agent) : Bool :=
  match a.response with
  | none => true
  | some r =>
    match r.output.getLast? with
    | some (.message role _) => role == "assistant"
    | _ => false

/-- Items the `continue_task` item loop handles without raising and
without involving the tool registry: computer calls, reasoning traces and
messages. -/
def OutputItem.isPlainLoopItem : OutputItem → Bool
  | .function_call .. => false
  | .other_item .. => false
  | _ => true

/-- A Turn holding two distinct pending computer calls. -/
def c1Turn : Response :=
  { id := "resp_1", status := "completed",
    output := [OutputItem.computer_call "call_1" (.click 1 2 "left") [],
               OutputItem.computer_call "call_2" (.click 3 4 "left") []] }

/-- An agent whose current Turn is `c1Turn`. -/
def c1Agent : Agent :=
  { response := some c1Turn, tools := [], parallel_tool_calls := false }

/-- The `continue_task` run of claim C1's counterexample: two pending
clicks; the remote model then returns an empty completed response. -/
def c1Run : ContinueResult :=
  c1Agent.continue_task (fun _ => "IMG")
    (fun _ => .success { id := "resp_2", status := "completed", output := [] })
    ""

/-- Whether an attempt outcome is one of the two exception kinds the
retry loop catches (and may retry). -/
def AttemptOutcome.isRetryable : AttemptOutcome → Bool
  | .success _ => false
  | _ => true

/-- An agent holding a Turn with one pending computer call and a pending
safety check. -/
def c10Agent : Agent :=
  { response := some
      { id := "resp_a", status := "completed",
        output := [OutputItem.computer_call "call_a" (.click 5 6 "left")
          ["check_1"]] },
    tools := [], parallel_tool_calls := false }

/-- The `continue_task` run of claim C10's witness: the previous Turn has
a pending call, and every remote attempt is rate-limited. -/
def c10Run : ContinueResult :=
  c10Agent.continue_task (fun _ => "IMG")
    (fun _ => .rate_limit "server busy") ""

/-- Three turns, each holding a single pending click and status
"completed" — an agent that returns exactly one pending action per
turn. -/
def c9Turns (k : Nat) : Response :=
  { id := "r", status := "completed",
    output := [OutputItem.computer_call "c" (.click (Int.ofNat k) 0 "left")
      []] }

/-- The orchestrator configuration of claim C9: max-actions 3, autoplay
off, consent and safety checks enabled. -/
def c9Config : EConfig :=
  { max_actions := 3, autoplay := false, require_consent := true,
    safety_checks_enabled := true }

theorem pyInt_of_nonneg {q : ℚ} (h : 0 ≤ q) : pyInt q = ⌊q⌋ := by
  simp [pyInt, not_lt.mpr h]

/-! ## Claims about the Scaler -/

/-- Claim C2, counterexample: over a computer of physical size
(1920, 1080), a `Scaler` constructed with no explicit target size reports
logical dimensions (1920, 1080), not the claimed (2048, 1152).  The 2048
cap only shrinks screens whose longest edge exceeds it; it never scales a
smaller screen up to the cap. -/
theorem c2_counterexample :
    (Scaler.dimensionsRun (Scaler.init none) (1920, 1080)).1 = (1920, 1080) ∧
    (Scaler.dimensionsRun (Scaler.init none) (1920, 1080)).1 ≠ (2048, 1152) := by
  decide

/-- Claim C2 (amended): with no explicit target size, whenever the
physical longest edge already fits within the 2048 cap — as for
(1920, 1080) — `dimensions()` returns the physical size unchanged. -/
theorem c2_dimensions_no_upscale (w h : Nat) (hfits : max w h ≤ 2048) :
    (Scaler.dimensionsRun (Scaler.init none) (w, h)).1 = (w, h) := by
  simp [Scaler.dimensionsRun, Scaler.init, hfits]

/-- Witness for `c2_dimensions_no_upscale` at the claim's scenario. -/
theorem c2_dimensions_no_upscale_witness :
    max 1920 1080 ≤ 2048 ∧
    (Scaler.dimensionsRun (Scaler.init none) (1920, 1080)).1 = (1920, 1080) :=
  ⟨by decide, c2_dimensions_no_upscale 1920 1080 (by decide)⟩

/-- Claim C4 (code bug): a pointer action invoked before any
`screenshot()` does not fail at all — no scale-not-initialized error
exists in the code.  `_point_to_screen_coords` happily divides by a ratio
computed from the sentinel screen size `-1`, so `click(100, 50)` on a
fresh Scaler over a (1920, 1080) computer silently delivers a click at
physical (0, 0): ratio = min(1920/(-1), 1080/(-1)) = -1920 and
`int(100 / -1920) = 0`. -/
theorem c4_click_before_screenshot_silently_delivered :
    ((Scaler.init none).click (1920, 1080) 100 50 "left").1 =
      CompCall.click 0 0 "left" := by
  simp [Scaler.click, Scaler.point_to_screen_coords, Scaler.dimensionsRun,
    Scaler.init, pyInt]
  norm_num

/-- Claim C8: the non-geometric actions `type`, `wait` and `keypress`
reach the underlying computer with their arguments unchanged, undergo no
coordinate translation, and leave the Scaler state untouched. -/
theorem c8_non_geometric_passthrough (s : Scaler) (text : String)
    (ms : Int) (keys : List String) :
    s.type text = (CompCall.type text, s) ∧
    s.wait ms = (CompCall.wait ms, s) ∧
    s.keypress keys = (CompCall.keypress keys, s) :=
  ⟨rfl, rfl, rfl⟩

/-- On a Scaler state holding logical size `(tW, tH)` and recorded
physical screen size `(W, H)`, `_point_to_screen_coords` floors
`logical / ratio` with `ratio = min(tW/W, tH/H)` and leaves the state
unchanged. -/
theorem point_to_screen_coords_eq (s : Scaler) (cd : Nat × Nat)
    (tW tH W H : Nat) (hs : s.size = some (tW, tH))
    (hsw : s.screen_width = (W : Int)) (hsh : s.screen_height = (H : Int))
    (htW : 1 ≤ tW) (htH : 1 ≤ tH) (hW : 1 ≤ W) (hH : 1 ≤ H)
    (x y : Int) (hx : 0 ≤ x) (hy : 0 ≤ y) :
    s.point_to_screen_coords cd x y =
      ((⌊(x : ℚ) / min ((tW : ℚ) / (W : ℚ)) ((tH : ℚ) / (H : ℚ))⌋,
        ⌊(y : ℚ) / min ((tW : ℚ) / (W : ℚ)) ((tH : ℚ) / (H : ℚ))⌋), s) := by
  have hrpos : (0 : ℚ) < min ((tW : ℚ) / (W : ℚ)) ((tH : ℚ) / (H : ℚ)) := by
    apply lt_min
    · exact div_pos (by exact_mod_cast htW) (by exact_mod_cast hW)
    · exact div_pos (by exact_mod_cast htH) (by exact_mod_cast hH)
  have hx2 : (0 : ℚ) ≤ (x : ℚ) /
      min ((tW : ℚ) / (W : ℚ)) ((tH : ℚ) / (H : ℚ)) :=
    div_nonneg (by exact_mod_cast hx) hrpos.le
  have hy2 : (0 : ℚ) ≤ (y : ℚ) /
      min ((tW : ℚ) / (W : ℚ)) ((tH : ℚ) / (H : ℚ)) :=
    div_nonneg (by exact_mod_cast hy) hrpos.le
  simp [Scaler.point_to_screen_coords, Scaler.dimensionsRun, hs, hsw, hsh,
    pyInt_of_nonneg hx2, pyInt_of_nonneg hy2]

/-- Helper: `dragPoints` on such a state floors every point of the path and leaves
the state unchanged. -/
theorem dragPoints_eq (s : Scaler) (cd : Nat × Nat)
    (tW tH W H : Nat) (hs : s.size = some (tW, tH))
    (hsw : s.screen_width = (W : Int)) (hsh : s.screen_height = (H : Int))
    (htW : 1 ≤ tW) (htH : 1 ≤ tH) (hW : 1 ≤ W) (hH : 1 ≤ H) :
    ∀ path : List (Int × Int), (∀ p ∈ path, 0 ≤ p.1 ∧ 0 ≤ p.2) →
    s.dragPoints cd path =
      (path.map fun p =>
        (⌊(p.1 : ℚ) / min ((tW : ℚ) / (W : ℚ)) ((tH : ℚ) / (H : ℚ))⌋,
         ⌊(p.2 : ℚ) / min ((tW : ℚ) / (W : ℚ)) ((tH : ℚ) / (H : ℚ))⌋), s) := by
  intro path
  induction path with
  | nil => intro _; simp [Scaler.dragPoints]
  | cons p ps ih =>
    intro hpath
    have h1 := point_to_screen_coords_eq s cd tW tH W H hs hsw hsh
      htW htH hW hH p.1 p.2 (hpath p (by simp)).1 (hpath p (by simp)).2
    have h2 := ih (fun q hq => hpath q (by simp [hq]))
    simp [Scaler.dragPoints, h1, h2]

/-- Claim C3: after a `screenshot()` has recorded the capture's true pixel
size (W, H), every pointer-bearing action on a Scaler with logical size
(tW, tH) — click, double-click, move, scroll, and each point of a drag
path — delivers to the underlying computer the floor (round-down) of
`logical / ratio` with `ratio = min(tW/W, tH/H)`; scroll deltas are
untouched.  The translation is the exact floor, hence within the claimed
1-pixel rounding tolerance. -/
theorem c3_pointer_translation (cd : Nat × Nat) (tW tH W H : Nat)
    (htW : 1 ≤ tW) (htH : 1 ≤ tH) (hW : 1 ≤ W) (hH : 1 ≤ H)
    (x y dx dy : Int) (hx : 0 ≤ x) (hy : 0 ≤ y) (button : String)
    (path : List (Int × Int)) (hpath : ∀ p ∈ path, 0 ≤ p.1 ∧ 0 ≤ p.2) :
    ((((Scaler.init (some (tW, tH))).screenshotRun cd W H).1.click
        cd x y button).1 =
      CompCall.click
        ⌊(x : ℚ) / min ((tW : ℚ) / (W : ℚ)) ((tH : ℚ) / (H : ℚ))⌋
        ⌊(y : ℚ) / min ((tW : ℚ) / (W : ℚ)) ((tH : ℚ) / (H : ℚ))⌋
        button) ∧
    ((((Scaler.init (some (tW, tH))).screenshotRun cd W H).1.double_click
        cd x y).1 =
      CompCall.double_click
        ⌊(x : ℚ) / min ((tW : ℚ) / (W : ℚ)) ((tH : ℚ) / (H : ℚ))⌋
        ⌊(y : ℚ) / min ((tW : ℚ) / (W : ℚ)) ((tH : ℚ) / (H : ℚ))⌋) ∧
    ((((Scaler.init (some (tW, tH))).screenshotRun cd W H).1.move
        cd x y).1 =
      CompCall.move
        ⌊(x : ℚ) / min ((tW : ℚ) / (W : ℚ)) ((tH : ℚ) / (H : ℚ))⌋
        ⌊(y : ℚ) / min ((tW : ℚ) / (W : ℚ)) ((tH : ℚ) / (H : ℚ))⌋) ∧
    ((((Scaler.init (some (tW, tH))).screenshotRun cd W H).1.scroll
        cd x y dx dy).1 =
      CompCall.scroll
        ⌊(x : ℚ) / min ((tW : ℚ) / (W : ℚ)) ((tH : ℚ) / (H : ℚ))⌋
        ⌊(y : ℚ) / min ((tW : ℚ) / (W : ℚ)) ((tH : ℚ) / (H : ℚ))⌋
        dx dy) ∧
    ((((Scaler.init (some (tW, tH))).screenshotRun cd W H).1.drag
        cd path).1 =
      CompCall.drag (path.map fun p =>
        (⌊(p.1 : ℚ) / min ((tW : ℚ) / (W : ℚ)) ((tH : ℚ) / (H : ℚ))⌋,
         ⌊(p.2 : ℚ) / min ((tW : ℚ) / (W : ℚ)) ((tH : ℚ) / (H : ℚ))⌋))) := by
  have hstate : ((Scaler.init (some (tW, tH))).screenshotRun cd W H).1 =
      { size := some (tW, tH), screen_width := (W : Int),
        screen_height := (H : Int) } := rfl
  have hpt := point_to_screen_coords_eq
    { size := some (tW, tH), screen_width := (W : Int),
      screen_height := (H : Int) } cd tW tH W H rfl rfl rfl htW htH hW hH
  have hdrag := dragPoints_eq
    { size := some (tW, tH), screen_width := (W : Int),
      screen_height := (H : Int) } cd tW tH W H rfl rfl rfl htW htH hW hH
    path hpath
  refine ⟨?_, ?_, ?_, ?_, ?_⟩
  · rw [hstate]; simp [Scaler.click, hpt x y hx hy]
  · rw [hstate]; simp [Scaler.double_click, hpt x y hx hy]
  · rw [hstate]; simp [Scaler.move, hpt x y hx hy]
  · rw [hstate]; simp [Scaler.scroll, hpt x y hx hy]
  · rw [hstate]; simp [Scaler.drag, hdrag]

/-- Witness for `c3_pointer_translation`: target size (1024, 768) over a
1920x1080 capture gives ratio 8/15; logical (100, 50) lands at physical
(187, 93). -/
theorem c3_pointer_translation_witness :
    ((((Scaler.init (some (1024, 768))).screenshotRun (1920, 1080)
        1920 1080).1.click (1920, 1080) 100 50 "left").1 =
      CompCall.click 187 93 "left") ∧
    ((((Scaler.init (some (1024, 768))).screenshotRun (1920, 1080)
        1920 1080).1.drag (1920, 1080) [(100, 50)]).1 =
      CompCall.drag [(187, 93)]) := by
  have h := c3_pointer_translation (1920, 1080) 1024 768 1920 1080
    (by norm_num) (by norm_num) (by norm_num) (by norm_num)
    100 50 3 4 (by norm_num) (by norm_num) "left" [(100, 50)] (by decide)
  obtain ⟨h1, _, _, _, h5⟩ := h
  constructor
  · rw [h1]
    simp only [CompCall.click.injEq]
    norm_num
  · rw [h5]
    simp only [List.map, CompCall.drag.injEq]
    norm_num

/-! ## Claim C7: requires_user_input -/

/-- Claim C7, counterexample: a current Turn whose output list is EMPTY.
The code returns true (`len(self.response.output) == 0` short-circuits to
`True`), while the claimed characterisation — no Turn exists, or the last
output item is an assistant message — is false, there being a Turn and no
last item. -/
theorem c7_counterexample :
    (Agent.requires_user_input
      { response := some { id := "r1", status := "completed", output := [] },
        tools := [], parallel_tool_calls := false }) = true ∧
    (claimRequiresUserInput
      { response := some { id := "r1", status := "completed", output := [] },
        tools := [], parallel_tool_calls := false }) = false :=
  ⟨rfl, rfl⟩

/-- Claim C7 (amended): `requires_user_input` is true exactly when no
current Turn exists, or the current Turn's output is empty, or its last
output item is a message with role "assistant"; in every other state it
is false. -/
theorem c7_requires_user_input_iff (a : Agent) :
    a.requires_user_input = true ↔
      (a.response = none ∨
       (∃ r, a.response = some r ∧ r.output = []) ∨
       (∃ r role content, a.response = some r ∧
          r.output.getLast? = some (.message role content) ∧
          role = "assistant")) := by
  cases ha : a.response with
  | none => simp [Agent.requires_user_input, ha]
  | some r =>
    cases hl : r.output.getLast? with
    | none =>
      have hnil : r.output = [] := by
        cases hout : r.output with
        | nil => rfl
        | cons x xs => rw [hout] at hl; simp at hl
      simp [Agent.requires_user_input, ha, hl, hnil]
    | some item =>
      have hne : r.output ≠ [] := by
        intro h0
        rw [h0] at hl
        simp at hl
      cases item with
      | message role content =>
        simp [Agent.requires_user_input, ha, hl, hne, beq_iff_eq]
      | computer_call cid act checks =>
        simp [Agent.requires_user_input, ha, hl, hne]
      | function_call cid name args =>
        simp [Agent.requires_user_input, ha, hl, hne]
      | reasoning summary =>
        simp [Agent.requires_user_input, ha, hl, hne]
      | other_item ty =>
        simp [Agent.requires_user_input, ha, hl, hne]

/-! ## Claim C1: action execution inside continue_task -/

/-- Over items that are all plain, the item loop dispatches the action of
the FIRST pending computer call (`self.actions[0]`) once per computer
call item, and finishes without error. -/
theorem runOutputItems_first_action (a : Agent) (shot : Nat → String)
    (act : CompCall) (rest : List CompCall)
    (hacts : a.actions = act :: rest) (hkind : act.kind ≠ "screenshot") :
    ∀ (items : List OutputItem) (acc : StepAcc),
      (∀ item ∈ items, item.isPlainLoopItem = true) →
      (a.runOutputItems shot items acc).1.executed =
        acc.executed ++
          List.replicate (items.countP OutputItem.isComputerCall) act ∧
      (a.runOutputItems shot items acc).2 = none := by
  intro items
  induction items with
  | nil => intro acc _; simp [Agent.runOutputItems]
  | cons item rest2 ih =>
    intro acc hplain
    have htail : ∀ i ∈ rest2, i.isPlainLoopItem = true :=
      fun i hi => hplain i (by simp [hi])
    cases item with
    | computer_call cid act2 checks =>
      have hrec := ih
        { inputs := acc.inputs ++ [InputItem.computer_call_output cid
            ("data:image/png;base64," ++ shot acc.shots)
            a.pending_safety_checks],
          executed := acc.executed ++ [act], shots := acc.shots + 1 } htail
      simp only [Agent.runOutputItems, hacts, hkind, ne_eq,
        not_false_iff, if_true, List.countP_cons, OutputItem.isComputerCall,
        if_pos, ite_true] at hrec ⊢
      refine ⟨?_, hrec.2⟩
      rw [hrec.1]
      simp [List.replicate_succ, List.append_assoc]
    | function_call cid name args =>
      have h0 := hplain (OutputItem.function_call cid name args) (by simp)
      simp [OutputItem.isPlainLoopItem] at h0
    | other_item ty =>
      have h0 := hplain (OutputItem.other_item ty) (by simp)
      simp [OutputItem.isPlainLoopItem] at h0
    | reasoning summary =>
      have hrec := ih acc htail
      simp [Agent.runOutputItems, List.countP_cons,
        OutputItem.isComputerCall, hrec.1, hrec.2]
    | message role content =>
      have hrec := ih acc htail
      simp [Agent.runOutputItems, List.countP_cons,
        OutputItem.isComputerCall, hrec.1, hrec.2]

/-- Claim C1, counterexample: with N = 2 pending action calls, one
`continue_task` invocation dispatches the FIRST pending action TWICE and
the second one never — the loop body always executes `self.actions[0]`.
So "executes exactly one of those pending actions" and "no pending action
is executed more than once" both fail; and since a `computer_call_output`
is submitted for both call ids and the Turn is then replaced, the second
call does not stay pending either. -/
theorem c1_counterexample :
    c1Run.executed = [CompCall.click 1 2 "left", CompCall.click 1 2 "left"] ∧
    c1Run.executed.length ≠ 1 ∧
    c1Run.executed.count (CompCall.click 1 2 "left") = 2 ∧
    c1Run.executed.count (CompCall.click 3 4 "left") = 0 := by
  decide

/-- Claim C1 (amended): for any current Turn containing N ≥ 1 pending
computer action calls (and otherwise only reasoning or message items), a
single `continue_task` invocation dispatches only the FIRST pending
action — but dispatches it once per pending call, i.e. N times in total —
and no other pending action is ever executed.  (Outputs are submitted for
every pending call id and the Turn is replaced, so no call remains
pending afterwards.) -/
theorem c1_first_action_replicated (a : Agent) (r : Response)
    (hr : a.response = some r)
    (hplain : ∀ item ∈ r.output, item.isPlainLoopItem = true)
    (act : CompCall) (rest : List CompCall)
    (hacts : a.actions = act :: rest) (hkind : act.kind ≠ "screenshot")
    (shot : Nat → String) (outcomes : Nat → AttemptOutcome) (um : String) :
    (a.continue_task shot outcomes um).executed =
      List.replicate (r.output.countP OutputItem.isComputerCall) act ∧
    ∀ other : CompCall, other ≠ act →
      (a.continue_task shot outcomes um).executed.count other = 0 := by
  have h := runOutputItems_first_action a shot act rest hacts hkind r.output
    { inputs := [], executed := [], shots := 0 } hplain
  have hexec : (a.continue_task shot outcomes um).executed =
      List.replicate (r.output.countP OutputItem.isComputerCall) act := by
    simp only [Agent.continue_task, hr]
    rw [h.2]
    simpa using h.1
  refine ⟨hexec, ?_⟩
  intro other hother
  have hne : ¬(act == other) = true := by simp [Ne.symm hother]
  rw [hexec, List.count_replicate, if_neg hne]

/-- Witness for `c1_first_action_replicated` on `c1Run`: N = 2, the first
pending click is dispatched exactly twice. -/
theorem c1_first_action_replicated_witness :
    c1Agent.actions =
      [CompCall.click 1 2 "left", CompCall.click 3 4 "left"] ∧
    c1Run.executed = List.replicate 2 (CompCall.click 1 2 "left") := by
  refine ⟨by decide, ?_⟩
  have h := c1_first_action_replicated c1Agent c1Turn rfl (by decide)
    (CompCall.click 1 2 "left") [CompCall.click 3 4 "left"] (by decide)
    (by decide) (fun _ => "IMG")
    (fun _ => .success { id := "resp_2", status := "completed", output := [] })
    ""
  have hc : c1Turn.output.countP OutputItem.isComputerCall = 2 := by decide
  show (c1Agent.continue_task (fun _ => "IMG")
    (fun _ => .success { id := "resp_2", status := "completed", output := [] })
    "").executed = List.replicate 2 (CompCall.click 1 2 "left")
  rw [h.1, hc]

/-! ## Claim C5: rate-limit resilience policy -/

/-- One-step unfolding of the retry loop at a positive budget. -/
theorem retryLoop_unfold (outcomes : Nat → AttemptOutcome)
    (wait b i : Nat) :
    retryLoop outcomes wait (b + 1) i =
      match outcomes i with
      | .success resp =>
        if resp.status = "completed" then ([wait], some resp, .ok ())
        else ([wait], some resp, .error .assertion_error)
      | .rate_limit msg =>
        let wait2 := (searchWait msg.toList).getD 10
        if b = 0 then ([wait], none, .error (.rate_limit msg))
        else
          let r := retryLoop outcomes wait2 b (i + 1)
          (wait :: r.1, r.2.1, r.2.2)
      | .internal_server_error msg =>
        if b = 0 then ([wait], none, .error (.internal_server_error msg))
        else
          let r := retryLoop outcomes wait b (i + 1)
          (wait :: r.1, r.2.1, r.2.2) := rfl

/-- With at least one try of budget remaining, the first sleep of the
retry loop is its pending `wait` argument. -/
theorem retryLoop_head_sleep (outcomes : Nat → AttemptOutcome)
    (wait b i : Nat) :
    (retryLoop outcomes wait (b + 1) i).1[0]? = some wait := by
  cases h : outcomes i with
  | success resp =>
    by_cases hst : resp.status = "completed" <;> simp [retryLoop, h, hst]
  | rate_limit msg =>
    by_cases hb : b = 0 <;> simp [retryLoop, h, hb]
  | internal_server_error msg =>
    by_cases hb : b = 0 <;> simp [retryLoop, h, hb]

/-- After a rate-limited attempt with at least two tries of budget, the
sleep performed before the next attempt is the wait parsed from the error
message, defaulting to 10. -/
theorem retryLoop_sleep_after_rate_limit (outcomes : Nat → AttemptOutcome)
    (wait b i : Nat) (msg : String) (h : outcomes i = .rate_limit msg) :
    (retryLoop outcomes wait (b + 2) i).1[1]? =
      some ((searchWait msg.toList).getD 10) := by
  have hh := retryLoop_head_sleep outcomes
    ((searchWait msg.toList).getD 10) b (i + 1)
  simp [retryLoop, h]
  simpa using hh

/-- If every attempt is rate-limited with message `msgs j`, the loop
exhausts its budget and re-raises the LAST rate-limit error — the
original error type, not a wrapper — leaving no response. -/
theorem retryLoop_rate_limit_exhaustion (outcomes : Nat → AttemptOutcome)
    (msgs : Nat → String)
    (hall : ∀ j, outcomes j = .rate_limit (msgs j)) :
    ∀ b wait i, (retryLoop outcomes wait (b + 1) i).2.1 = none ∧
      (retryLoop outcomes wait (b + 1) i).2.2 =
        .error (.rate_limit (msgs (i + b))) := by
  intro b
  induction b with
  | zero =>
    intro wait i
    rw [retryLoop_unfold, hall i]
    simp
  | succ b ih =>
    intro wait i
    have hrec := ih ((searchWait (msgs i).toList).getD 10) (i + 1)
    have h2 := hrec.2
    rw [show i + 1 + b = i + (b + 1) from by omega] at h2
    rw [retryLoop_unfold, hall i]
    simp only [String.toList] at hrec h2
    simp [hrec.1, h2]

/-- Claim C5: (1) after any rate-limited attempt that still has budget,
the sleep before the next attempt equals the wait parsed from the message
via the pattern `Please try again in (\d+)s`, defaulting to 10 when the
pattern is absent; (2) a message encoding 7s parses to exactly 7, so the
policy waits (at least) 7 seconds; (3) when all attempts are rate-limited
the loop re-raises the original rate-limit error — not a generic wrapper
— after the 10th attempt. -/
theorem c5_rate_limit_policy (outcomes : Nat → AttemptOutcome)
    (msgs : Nat → String) :
    (∀ wait b i msg, outcomes i = .rate_limit msg →
      (retryLoop outcomes wait (b + 2) i).1[1]? =
        some ((searchWait msg.toList).getD 10)) ∧
    searchWait ("Rate limit is exceeded. Please try again in 7s.").toList =
      some 7 ∧
    ((∀ j, outcomes j = .rate_limit (msgs j)) →
      (retryLoop outcomes 0 10 0).2.1 = none ∧
      (retryLoop outcomes 0 10 0).2.2 = .error (.rate_limit (msgs 9))) := by
  refine ⟨?_, by decide, ?_⟩
  · intro wait b i msg h
    exact retryLoop_sleep_after_rate_limit outcomes wait b i msg h
  · intro hall
    have h := retryLoop_rate_limit_exhaustion outcomes msgs hall 9 0 0
    simpa using h

/-- Witness for `c5_rate_limit_policy`: all attempts fail with
"Please try again in 7s"; the sleep before the second attempt is 7
seconds and the loop ends by re-raising the rate-limit error itself. -/
theorem c5_rate_limit_policy_witness :
    (retryLoop (fun _ => .rate_limit "Please try again in 7s") 0 10 0).1[1]?
      = some 7 ∧
    (retryLoop (fun _ => .rate_limit "Please try again in 7s") 0 10 0).2.2
      = .error (.rate_limit "Please try again in 7s") := by
  have h := c5_rate_limit_policy
    (fun _ => .rate_limit "Please try again in 7s")
    (fun _ => "Please try again in 7s")
  constructor
  · have h1 := h.1 0 8 0 "Please try again in 7s" rfl
    have h2 : (8 : Nat) + 2 = 10 := rfl
    rw [h2] at h1
    rw [h1]
    decide
  · exact (h.2.2 (fun j => rfl)).2

/-! ## Claim C6: non-completed completion status -/

/-- If the first `k` attempts raise retryable errors and attempt `k`
returns a response whose status is not "completed", the loop stops right
there with the assertion error: attempt `k` is the last (no retry), and
`self.response` holds the non-completed response (it was assigned before
the assert). -/
theorem retryLoop_stops_on_bad_status (outcomes : Nat → AttemptOutcome)
    (resp : Response) (hstatus : resp.status ≠ "completed") :
    ∀ k b wait i, k < b →
      (∀ j, j < k → (outcomes (i + j)).isRetryable = true) →
      outcomes (i + k) = .success resp →
      (retryLoop outcomes wait b i).2.2 = .error .assertion_error ∧
      (retryLoop outcomes wait b i).2.1 = some resp ∧
      (retryLoop outcomes wait b i).1.length = k + 1 := by
  intro k
  induction k with
  | zero =>
    intro b wait i hkb _ hout
    obtain ⟨b2, rfl⟩ : ∃ b2, b = b2 + 1 := ⟨b - 1, by omega⟩
    rw [Nat.add_zero] at hout
    rw [retryLoop_unfold, hout]
    simp [hstatus]
  | succ k ih =>
    intro b wait i hkb hpre hout
    obtain ⟨b2, rfl⟩ : ∃ b2, b = b2 + 1 := ⟨b - 1, by omega⟩
    have h0 := hpre 0 (by omega)
    rw [Nat.add_zero] at h0
    have hb2 : b2 ≠ 0 := by omega
    have hpre2 : ∀ j, j < k → (outcomes (i + 1 + j)).isRetryable = true := by
      intro j hj
      have := hpre (j + 1) (by omega)
      rwa [show i + (j + 1) = i + 1 + j from by omega] at this
    have hout2 : outcomes (i + 1 + k) = .success resp := by
      rwa [show i + 1 + k = i + (k + 1) from by omega]
    cases hoi : outcomes i with
    | success r0 =>
      rw [hoi] at h0
      simp [AttemptOutcome.isRetryable] at h0
    | rate_limit msg =>
      have hrec := ih b2 ((searchWait msg.toList).getD 10) (i + 1)
        (by omega) hpre2 hout2
      rw [retryLoop_unfold, hoi]
      simp only [String.toList] at hrec
      simp [hb2, hrec.1, hrec.2.1, hrec.2.2]
    | internal_server_error msg =>
      have hrec := ih b2 wait (i + 1) (by omega) hpre2 hout2
      rw [retryLoop_unfold, hoi]
      simp [hb2, hrec.1, hrec.2.1, hrec.2.2]

/-- Claim C6: whenever the remote call inside `continue_task` returns (at
any attempt) a response whose completion status is not "completed", the
call raises the assertion error, the failure is never retried (that
attempt is the last), and the non-completed response is never treated as
a successful turn — the call fails loudly, with `self.response` holding
the non-completed response. -/
theorem c6_noncompleted_fails_loudly (a : Agent) (shot : Nat → String)
    (outcomes : Nat → AttemptOutcome) (um : String) (resp : Response)
    (hstatus : resp.status ≠ "completed") (k : Nat) (hk : k < 10)
    (hpre : ∀ j, j < k → (outcomes j).isRetryable = true)
    (hout : outcomes k = .success resp)
    (hstep : (a.runOutputItems shot
        (match a.response with | none => [] | some r => r.output)
        { inputs := [], executed := [], shots := 0 }).2 = none) :
    (a.continue_task shot outcomes um).result = .error .assertion_error ∧
    (a.continue_task shot outcomes um).sleeps.length = k + 1 ∧
    (a.continue_task shot outcomes um).agent.response = some resp := by
  have h := retryLoop_stops_on_bad_status outcomes resp hstatus k 10 0 0 hk
    (fun j hj => by simpa using hpre j hj) (by simpa using hout)
  simp only [Agent.continue_task]
  rw [hstep]
  exact ⟨h.1, h.2.2, h.2.1⟩

/-- Witness for `c6_noncompleted_fails_loudly`: the very first attempt
returns an "in_progress" response; the call errors at once. -/
theorem c6_noncompleted_fails_loudly_witness :
    ((Agent.continue_task
        { response := none, tools := [], parallel_tool_calls := false }
        (fun _ => "")
        (fun _ => .success { id := "x", status := "in_progress", output := [] })
        "hello").result = .error .assertion_error) ∧
    ((Agent.continue_task
        { response := none, tools := [], parallel_tool_calls := false }
        (fun _ => "")
        (fun _ => .success { id := "x", status := "in_progress", output := [] })
        "hello").sleeps.length = 0 + 1) ∧
    ((Agent.continue_task
        { response := none, tools := [], parallel_tool_calls := false }
        (fun _ => "")
        (fun _ => .success { id := "x", status := "in_progress", output := [] })
        "hello").agent.response =
      some { id := "x", status := "in_progress", output := [] }) :=
  c6_noncompleted_fails_loudly
    { response := none, tools := [], parallel_tool_calls := false }
    (fun _ => "")
    (fun _ => .success { id := "x", status := "in_progress", output := [] })
    "hello" { id := "x", status := "in_progress", output := [] }
    (by decide) 0 (by decide) (fun j hj => absurd hj (by omega)) rfl rfl

/-! ## Claim C10: turn state after remote failure -/

/-- If every attempt raises a retryable error, the loop exhausts its
budget, ends in an error, and leaves no response. -/
theorem retryLoop_all_failures (outcomes : Nat → AttemptOutcome)
    (hfail : ∀ j, (outcomes j).isRetryable = true) :
    ∀ b wait i, (retryLoop outcomes wait (b + 1) i).2.1 = none ∧
      ∃ e, (retryLoop outcomes wait (b + 1) i).2.2 = .error e := by
  intro b
  induction b with
  | zero =>
    intro wait i
    cases h : outcomes i with
    | success r =>
      have := hfail i
      rw [h] at this
      simp [AttemptOutcome.isRetryable] at this
    | rate_limit msg =>
      rw [retryLoop_unfold, h]
      exact ⟨rfl, _, rfl⟩
    | internal_server_error msg =>
      rw [retryLoop_unfold, h]
      exact ⟨rfl, _, rfl⟩
  | succ b ih =>
    intro wait i
    cases h : outcomes i with
    | success r =>
      have := hfail i
      rw [h] at this
      simp [AttemptOutcome.isRetryable] at this
    | rate_limit msg =>
      have hrec := ih ((searchWait msg.toList).getD 10) (i + 1)
      obtain ⟨e, he⟩ := hrec.2
      rw [retryLoop_unfold, h]
      simp only [String.toList] at hrec he
      refine ⟨by simp [hrec.1], e, by simp [he]⟩
    | internal_server_error msg =>
      have hrec := ih wait (i + 1)
      obtain ⟨e, he⟩ := hrec.2
      rw [retryLoop_unfold, h]
      refine ⟨by simp [hrec.1], e, by simp [he]⟩

/-- Claim C10 (implicit): `continue_task` clears the current Turn (line
172) before its first attempt, so when the remote call fails for all 10
attempts — rate limit or server error — the exception propagates with the
previous Turn NOT restored: afterwards `requires_user_input` is true,
`requires_consent` is false, and `actions` and `pending_safety_checks`
are empty.  `continue_task` is not atomic in the current Turn on remote
failure. -/
theorem c10_turn_lost_on_remote_failure (a : Agent) (shot : Nat → String)
    (outcomes : Nat → AttemptOutcome) (um : String)
    (hfail : ∀ j, (outcomes j).isRetryable = true)
    (hstep : (a.runOutputItems shot
        (match a.response with | none => [] | some r => r.output)
        { inputs := [], executed := [], shots := 0 }).2 = none) :
    (∃ e, (a.continue_task shot outcomes um).result = .error e) ∧
    (a.continue_task shot outcomes um).agent.response = none ∧
    (a.continue_task shot outcomes um).agent.requires_user_input = true ∧
    (a.continue_task shot outcomes um).agent.requires_consent = false ∧
    (a.continue_task shot outcomes um).agent.actions = [] ∧
    (a.continue_task shot outcomes um).agent.pending_safety_checks = [] := by
  have h := retryLoop_all_failures outcomes hfail 9 0 0
  obtain ⟨e, he⟩ := h.2
  have h1 := h.1
  simp only [Agent.continue_task]
  rw [hstep]
  refine ⟨⟨e, he⟩, h1, ?_, ?_, ?_, ?_⟩ <;>
    simp [Agent.requires_user_input, Agent.requires_consent, Agent.actions,
      Agent.pending_safety_checks, h1]

/-- Witness for `c10_turn_lost_on_remote_failure` on `c10Run`. -/
theorem c10_turn_lost_on_remote_failure_witness :
    (∃ e, c10Run.result = .error e) ∧
    c10Run.agent.response = none ∧
    c10Run.agent.requires_user_input = true ∧
    c10Run.agent.requires_consent = false ∧
    c10Run.agent.actions = [] ∧
    c10Run.agent.pending_safety_checks = [] :=
  c10_turn_lost_on_remote_failure c10Agent (fun _ => "IMG")
    (fun _ => .rate_limit "server busy") "" (fun j => rfl) (by decide)

/-! ## Claim C9: the orchestrator's action budget -/

/-- Helper: `continue_task` from a fresh agent (no current Turn): nothing is
executed, one attempt succeeds with a completed response. -/
theorem continue_task_from_none (a : Agent) (hr : a.response = none)
    (shot : Nat → String) (resp : Response)
    (hresp : resp.status = "completed") (um : String) :
    a.continue_task shot (fun _ => .success resp) um =
      { agent := { a with response := some resp },
        previous_response_id := none,
        inputs := if um ≠ "" then [InputItem.message "user" um] else [],
        executed := [], screenshots_taken := 0,
        sleeps := [0], result := .ok () } := by
  have hloop : retryLoop (fun _ => .success resp) 0 10 0 =
      ([0], some resp, .ok ()) := by
    rw [show (10 : Nat) = 9 + 1 from rfl, retryLoop_unfold]
    simp [hresp]
  simp [Agent.continue_task, hr, Agent.runOutputItems, hloop]

/-- Helper: `continue_task` from an agent whose Turn holds exactly one pending
(non-screenshot) computer call: that action is dispatched once, one
screenshot is captured, and the successful completed response replaces
the Turn. -/
theorem continue_task_from_single_call (a : Agent) (cid : String)
    (act : CompCall) (checks : List String) (iid st : String)
    (hr : a.response = some ⟨iid, st,
      [OutputItem.computer_call cid act checks]⟩)
    (hk : act.kind ≠ "screenshot")
    (shot : Nat → String) (resp : Response)
    (hresp : resp.status = "completed") :
    a.continue_task shot (fun _ => .success resp) "" =
      { agent := { a with response := some resp },
        previous_response_id := some iid,
        inputs := [InputItem.computer_call_output cid
          ("data:image/png;base64," ++ shot 0) a.pending_safety_checks],
        executed := [act], screenshots_taken := 1,
        sleeps := [0], result := .ok () } := by
  have hacts : a.actions = [act] := by simp [Agent.actions, hr]
  have hloop : retryLoop (fun _ => .success resp) 0 10 0 =
      ([0], some resp, .ok ()) := by
    rw [show (10 : Nat) = 9 + 1 from rfl, retryLoop_unfold]
    simp [hresp]
  simp [Agent.continue_task, hr, Agent.runOutputItems, hacts, hk, hloop]

/-- Claim C9, counterexample: the loop does halt after counting exactly 3
actions and a 4th `continue()` never occurs (continue_calls = 3), but the
returned result is NOT an Aborted/limit-reached result: the run returns a
SUCCESS result whose summary reads "Task completed successfully with 3
actions" — the limit is only logged as a warning.  (Also visible: only 2
of the 3 counted actions were ever dispatched to the computer, since a
pending action is executed at the start of the NEXT continue call.) -/
theorem c9_counterexample :
    execute_instructions c9Config c9Turns (fun _ => "") "do the scenario" 5 =
      some { result :=
               { success := true,
                 summary := "Task completed successfully with 3 actions",
                 actions_taken := 3, error_message := none,
                 screenshots := 1 },
             continue_calls := 3,
             executed := [CompCall.click 0 0 "left",
                          CompCall.click 1 0 "left"] } := by
  decide

/-- Claim C9 (amended): with max-actions = 3 over an agent whose remote
model returns, on every call, a completed Turn holding exactly one
pending non-screenshot computer action, the loop makes exactly 3
`continue_task` calls — a 4th never occurs — and counts 3 actions; but
only the first two pending actions are ever dispatched to the computer
(a pending action is dispatched at the start of the FOLLOWING continue
call, which for the third never comes), and the run does not end in an
Aborted/limit-reached result: reaching the budget is only logged, and the
returned result is a SUCCESS result whose summary reads "Task completed
successfully with 3 actions". -/
theorem c9_limit_reached_success (turns : Nat → Response)
    (shot : Nat → String) (ids cids : Nat → String) (acts : Nat → CompCall)
    (checks : Nat → List String)
    (hshape : ∀ k, turns k = ⟨ids k, "completed",
      [OutputItem.computer_call (cids k) (acts k) (checks k)]⟩)
    (hkind : ∀ k, (acts k).kind ≠ "screenshot")
    (instructions : String) (hinstr : instructions ≠ "")
    (ap rc sc : Bool) :
    execute_instructions ⟨3, ap, rc, sc⟩ turns shot instructions 5 =
      some { result :=
               { success := true,
                 summary := "Task completed successfully with 3 actions",
                 actions_taken := 3, error_message := none,
                 screenshots := 1 },
             continue_calls := 3, executed := [acts 0, acts 1] } := by
  have hc0 := continue_task_from_none
    { response := none, tools := [], parallel_tool_calls := false } rfl shot
    (turns 0) (by rw [hshape 0]) instructions
  have hc1 := continue_task_from_single_call
    { response := some (turns 0), tools := [], parallel_tool_calls := false }
    (cids 0) (acts 0) (checks 0) (ids 0) "completed"
    (by rw [hshape 0]) (hkind 0) shot (turns 1) (by rw [hshape 1])
  have hc2 := continue_task_from_single_call
    { response := some (turns 1), tools := [], parallel_tool_calls := false }
    (cids 1) (acts 1) (checks 1) (ids 1) "completed"
    (by rw [hshape 1]) (hkind 1) shot (turns 2) (by rw [hshape 2])
  have hru0 : (⟨some (turns 0), [], false⟩ : Agent).requires_user_input
      = false := by
    rw [hshape 0]; rfl
  have hru1 : (⟨some (turns 1), [], false⟩ : Agent).requires_user_input
      = false := by
    rw [hshape 1]; rfl
  have hac0 : (⟨some (turns 0), [], false⟩ : Agent).actions = [acts 0] := by
    rw [hshape 0]; rfl
  have hac1 : (⟨some (turns 1), [], false⟩ : Agent).actions = [acts 1] := by
    rw [hshape 1]; rfl
  have hac2 : (⟨some (turns 2), [], false⟩ : Agent).actions = [acts 2] := by
    rw [hshape 2]; rfl
  rw [show (5 : Nat) = 4 + 1 from rfl]
  simp only [execute_instructions, Agent.start_task, execLoop]
  simp [hinstr, get_user_consent, handle_safety_checks, hc0, hc1, hc2,
    hru0, hru1, hac0, hac1, hac2]
  try rfl

/-- Witness for `c9_limit_reached_success`: a model that always proposes
a click at (7, 7). -/
theorem c9_limit_reached_success_witness :
    execute_instructions ⟨3, false, true, true⟩
        (fun _ => ⟨"r", "completed",
          [OutputItem.computer_call "c" (CompCall.click 7 7 "left") []]⟩)
        (fun _ => "") "run" 5 =
      some { result :=
               { success := true,
                 summary := "Task completed successfully with 3 actions",
                 actions_taken := 3, error_message := none,
                 screenshots := 1 },
             continue_calls := 3,
             executed := [CompCall.click 7 7 "left",
                          CompCall.click 7 7 "left"] } :=
  c9_limit_reached_success
    (fun _ => ⟨"r", "completed",
      [OutputItem.computer_call "c" (CompCall.click 7 7 "left") []]⟩)
    (fun _ => "") (fun _ => "r") (fun _ => "c")
    (fun _ => CompCall.click 7 7 "left") (fun _ => [])
    (fun _ => rfl) (fun _ => by simp [CompCall.kind]) "run" (by decide)
    false true true

end CUA
